import Mathlib

/-!
Verification development for `scripts/momoshop_scraper.py`.

The Python program is embedded shallowly: Python strings are Lean `String`s,
`Optional[str]` is `Option String`, the `Product` dataclass is a structure,
and every Python function the claims mention is translated into an
executable Lean definition of the same name (leading underscores dropped
where Lean style forbids them).  The HTML document produced by
BeautifulSoup is modelled as a tree of element/text nodes; `json.loads` is
modelled by an executable JSON parser returning `Option Json`; the regular
expressions appearing in the source are modelled by direct backtracking
matchers specialised to those patterns.
-/

/-! ### Python string primitives -/

/-- Python `s.replace(" ", "")`: removes every space character (U+0020 only). -/
def stripSpaces (s : String) : String := ⟨s.data.filter (fun c => c ≠ ' ')⟩

/-- Python `s.lower()`, modelled characterwise with `Char.toLower` (identity on
CJK characters, ASCII letters mapped to lower case). -/
def lowerStr (s : String) : String := ⟨s.data.map Char.toLower⟩

/-- Python substring test `needle in hay`. -/
def isSubstr (needle hay : String) : Bool := decide (needle.data <:+: hay.data)

/-- Python `filter(None, xs)` over a list of optional strings: keeps exactly the
truthy entries, i.e. drops `None` and the empty string. -/
def pyTruthyStrs : List (Option String) → List String
  | [] => []
  | none :: rest => pyTruthyStrs rest
  | some s :: rest => if s = "" then pyTruthyStrs rest else s :: pyTruthyStrs rest

/-- Python `" ".join l`. -/
def joinSpace : List String → String
  | [] => ""
  | [s] => s
  | s :: rest => s ++ " " ++ joinSpace rest

/-! ### The `Product` dataclass and keyword filtering -/

/-- The `Product` dataclass: `title` (str), `price` (Optional[str]),
`category` (Optional[str]). -/
structure Product where
  title : String
  price : Option String
  category : Option String
deriving DecidableEq, Repr

/-- `Product.matches_keyword` from the source:
`normalized = keyword.replace(" ", "").lower()`;
`haystack = " ".join(filter(None, [self.category, self.title]))`;
`return normalized in haystack.replace(" ", "").lower()`. -/
def Product.matches_keyword (p : Product) (keyword : String) : Bool :=
  let normalized := lowerStr (stripSpaces keyword)
  let haystack := joinSpace (pyTruthyStrs [p.category, some p.title])
  isSubstr normalized (lowerStr (stripSpaces haystack))

/-- `filter_products` from the source: the list comprehension
`[product for product in products if product.matches_keyword(keyword)]`. -/
def filter_products (products : List Product) (keyword : String) : List Product :=
  products.filter (fun product => product.matches_keyword keyword)

/-- The filter condition in the words of the spec: the keyword with all spaces
removed and lowercased is a substring of the space-stripped lowercased
concatenation of the listing's category and title. -/
def specNormalizedMatch (p : Product) (keyword : String) : Bool :=
  isSubstr (lowerStr (stripSpaces keyword))
    (lowerStr (stripSpaces ((p.category.getD "") ++ p.title)))

/-! ### Lemmas about the filter -/

theorem stripSpaces_append (a b : String) :
    stripSpaces (a ++ b) = stripSpaces a ++ stripSpaces b := by
  apply String.ext
  simp [stripSpaces, String.data_append, List.filter_append]

theorem stripSpaces_space_append (b : String) :
    stripSpaces (" " ++ b) = stripSpaces b := by
  apply String.ext
  simp [stripSpaces, String.data_append]

theorem append_empty_string (a : String) : a ++ "" = a := by
  apply String.ext
  simp [String.data_append]

theorem empty_string_append (a : String) : "" ++ a = a := by
  apply String.ext
  simp [String.data_append]

theorem stripSpaces_single_space : stripSpaces " " = "" := rfl

/-- The code's normalized haystack agrees with the spec's: joining the truthy
entries of `[category, title]` with a space and then stripping spaces is the
same as stripping spaces from the plain concatenation `category ++ title`. -/
theorem matches_keyword_eq_spec (p : Product) (keyword : String) :
    p.matches_keyword keyword = specNormalizedMatch p keyword := by
  obtain ⟨t, pr, c⟩ := p
  have hjoin : stripSpaces (joinSpace (pyTruthyStrs [c, some t]))
      = stripSpaces ((c.getD "") ++ t) := by
    cases c with
    | none =>
      by_cases ht : t = "" <;>
        simp [pyTruthyStrs, joinSpace, ht, empty_string_append]
    | some cv =>
      by_cases hc : cv = ""
      · by_cases ht : t = "" <;>
          simp [pyTruthyStrs, joinSpace, hc, ht, empty_string_append]
      · by_cases ht : t = ""
        · simp [pyTruthyStrs, joinSpace, hc, ht, append_empty_string]
        · have hlist : pyTruthyStrs [some cv, some t] = [cv, t] := by
            simp [pyTruthyStrs, hc, ht]
          rw [hlist]
          have hj : joinSpace [cv, t] = cv ++ " " ++ t := rfl
          have hassoc : cv ++ " " ++ t = cv ++ (" " ++ t) := by
            apply String.ext
            simp [String.data_append]
          rw [hj, hassoc, stripSpaces_append, stripSpaces_space_append,
            ← stripSpaces_append]
          simp [Option.getD]
  simp only [Product.matches_keyword, specNormalizedMatch]
  rw [hjoin]

/-- C2: membership in `filter_products` is equivalent to the spec's normalized
substring condition.  Supporting fact: the concrete keyword "AI手機" matches a
listing whose category is "AI 手機" despite the embedded space. -/
theorem c2_filter_matches_spec :
    (∀ (L : List Product) (keyword : String) (p : Product), p ∈ L →
      (p ∈ filter_products L keyword ↔ specNormalizedMatch p keyword = true))
    ∧ Product.matches_keyword ⟨"Galaxy S25", none, some "AI 手機"⟩ "AI手機" = true := by
  constructor
  · intro L keyword p hp
    unfold filter_products
    rw [List.mem_filter, matches_keyword_eq_spec]
    exact ⟨fun h => h.2, fun h => ⟨hp, h⟩⟩
  · decide

/-- Witness for C2 at a concrete list and listing. -/
theorem c2_filter_matches_spec_witness :
    (⟨"Galaxy S25", none, some "AI 手機"⟩ : Product) ∈
        [(⟨"Galaxy S25", none, some "AI 手機"⟩ : Product)]
    ∧ ((⟨"Galaxy S25", none, some "AI 手機"⟩ : Product) ∈
        filter_products [⟨"Galaxy S25", none, some "AI 手機"⟩] "AI手機"
      ↔ specNormalizedMatch ⟨"Galaxy S25", none, some "AI 手機"⟩ "AI手機" = true) :=
  ⟨by decide,
    c2_filter_matches_spec.1 [⟨"Galaxy S25", none, some "AI 手機"⟩] "AI手機"
      ⟨"Galaxy S25", none, some "AI 手機"⟩ (by decide)⟩

/-- C3: filtering is idempotent: filtering an already filtered list with the
same keyword returns it unchanged. -/
theorem c3_filter_idempotent (L : List Product) (keyword : String) :
    filter_products (filter_products L keyword) keyword
      = filter_products L keyword := by
  simp [filter_products, List.filter_filter]

/-- C9: the filtered list is a sublist of the input: every element comes from
the input, occurrences are not duplicated, and relative order is preserved. -/
theorem c9_filter_sublist (L : List Product) (keyword : String) :
    List.Sublist (filter_products L keyword) L :=
  List.filter_sublist L

/-- C10: with the empty keyword every listing matches, so filtering with the
empty string returns the whole list. -/
theorem c10_empty_keyword (L : List Product) :
    filter_products L "" = L := by
  unfold filter_products
  apply List.filter_eq_self.mpr
  intro p _
  simp [Product.matches_keyword, isSubstr, stripSpaces, lowerStr]

/-! ### JSON values and a model of `json.loads` -/

/-- A JSON value as produced by `json.loads`.  Numbers keep their lexeme
(`"NaN"`, `"Infinity"`, `"-Infinity"` are the special literals CPython's
parser also accepts). -/
inductive Json where
  | null
  | bool (b : Bool)
  | num (lit : String)
  | str (s : String)
  | arr (elems : List Json)
  | obj (fields : List (String × Json))

/-- JSON whitespace (space, tab, newline, carriage return). -/
def jsonWs (c : Char) : Bool := c = ' ' || c = '\t' || c = '\n' || c = '\r'

def dropJsonWs (s : List Char) : List Char := s.dropWhile jsonWs

def hexVal (c : Char) : Option Nat :=
  if '0' ≤ c ∧ c ≤ '9' then some (c.toNat - '0'.toNat)
  else if 'a' ≤ c ∧ c ≤ 'f' then some (c.toNat - 'a'.toNat + 10)
  else if 'A' ≤ c ∧ c ≤ 'F' then some (c.toNat - 'A'.toNat + 10)
  else none

/-- Body of a JSON string after the opening quote: handles the escape
sequences accepted by CPython's strict parser and rejects raw control
characters.  (Lone alien surrogate escapes, which Python would keep, fall
back to `Char.ofNat`'s replacement; no claim exercises them.) -/
def parseJsonStringBody : List Char → List Char → Option (String × List Char)
  | [], _ => none
  | '"' :: rest, acc => some (⟨acc.reverse⟩, rest)
  | '\\' :: 'u' :: h1 :: h2 :: h3 :: h4 :: rest, acc =>
    (match hexVal h1, hexVal h2, hexVal h3, hexVal h4 with
    | some a, some b, some c, some d =>
      parseJsonStringBody rest (Char.ofNat (((a * 16 + b) * 16 + c) * 16 + d) :: acc)
    | _, _, _, _ => none)
  | '\\' :: e :: rest, acc =>
    (match
      (if e = '"' then some '"'
       else if e = '\\' then some '\\'
       else if e = '/' then some '/'
       else if e = 'b' then some '\x08'
       else if e = 'f' then some '\x0c'
       else if e = 'n' then some '\n'
       else if e = 'r' then some '\r'
       else if e = 't' then some '\t'
       else none) with
    | some ch => parseJsonStringBody rest (ch :: acc)
    | none => none)
  | c :: rest, acc =>
    if c.toNat < 32 then none else parseJsonStringBody rest (c :: acc)

/-- Integer part of a JSON number: `0` or a nonzero digit followed by digits. -/
def parseIntDigits : List Char → Option (List Char)
  | '0' :: rest => some rest
  | c :: rest => if '1' ≤ c ∧ c ≤ '9' then some (rest.dropWhile Char.isDigit) else none
  | [] => none

/-- Optional fraction part `.[0-9]+`. -/
def parseFracPart : List Char → Option (List Char)
  | '.' :: rest =>
    if rest.takeWhile Char.isDigit = [] then none
    else some (rest.dropWhile Char.isDigit)
  | s => some s

def parseExpDigits (s : List Char) : Option (List Char) :=
  let s1 := match s with
    | '+' :: r => r
    | '-' :: r => r
    | r => r
  if s1.takeWhile Char.isDigit = [] then none else some (s1.dropWhile Char.isDigit)

/-- Optional exponent part `[eE][+-]?[0-9]+`. -/
def parseExpPart : List Char → Option (List Char)
  | 'e' :: rest => parseExpDigits rest
  | 'E' :: rest => parseExpDigits rest
  | s => some s

/-- Lexes a JSON number starting at the head of `s`; returns the lexeme and
the remaining characters. -/
def parseNumberLexeme (s : List Char) : Option (String × List Char) :=
  let s1 := match s with
    | '-' :: r => r
    | r => r
  match parseIntDigits s1 with
  | none => none
  | some s2 =>
    match parseFracPart s2 with
    | none => none
    | some s3 =>
      match parseExpPart s3 with
      | none => none
      | some s4 => some (⟨s.take (s.length - s4.length)⟩, s4)

/-- Object-members loop, parameterised by the value parser `pv` (the
recursive call at one less nesting fuel) and fuelled by text length. -/
def parseMembersF (pv : List Char → Option (Json × List Char)) :
    Nat → List Char → List (String × Json) → Option (Json × List Char)
  | 0, _, _ => none
  | fuel + 1, s, acc =>
    match dropJsonWs s with
    | '"' :: rest =>
      (match parseJsonStringBody rest [] with
      | none => none
      | some (key, r1) =>
        match dropJsonWs r1 with
        | ':' :: r2 =>
          (match pv (dropJsonWs r2) with
          | none => none
          | some (v, r3) =>
            match dropJsonWs r3 with
            | ',' :: r4 => parseMembersF pv fuel r4 ((key, v) :: acc)
            | '\x7d' :: r4 => some (.obj ((key, v) :: acc).reverse, r4)
            | _ => none)
        | _ => none)
    | _ => none

/-- Array-elements loop, parameterised like `parseMembersF`. -/
def parseElemsF (pv : List Char → Option (Json × List Char)) :
    Nat → List Char → List Json → Option (Json × List Char)
  | 0, _, _ => none
  | fuel + 1, s, acc =>
    match pv (dropJsonWs s) with
    | none => none
    | some (v, r1) =>
      match dropJsonWs r1 with
      | ',' :: r2 => parseElemsF pv fuel r2 (v :: acc)
      | ']' :: r2 => some (.arr (v :: acc).reverse, r2)
      | _ => none

/-- Recursive-descent JSON value parser, fuelled by nesting depth. -/
def parseValue : Nat → List Char → Option (Json × List Char)
  | 0, _ => none
  | fuel + 1, s =>
    match dropJsonWs s with
    | '\x7b' :: r =>
      (match dropJsonWs r with
      | '\x7d' :: r2 => some (.obj [], r2)
      | r2 => parseMembersF (parseValue fuel) (r2.length + 1) r2 [])
    | '[' :: r =>
      (match dropJsonWs r with
      | ']' :: r2 => some (.arr [], r2)
      | r2 => parseElemsF (parseValue fuel) (r2.length + 1) r2 [])
    | '"' :: r =>
      (match parseJsonStringBody r [] with
      | none => none
      | some (sv, r2) => some (.str sv, r2))
    | 't' :: 'r' :: 'u' :: 'e' :: r => some (.bool true, r)
    | 'f' :: 'a' :: 'l' :: 's' :: 'e' :: r => some (.bool false, r)
    | 'n' :: 'u' :: 'l' :: 'l' :: r => some (.null, r)
    | 'N' :: 'a' :: 'N' :: r => some (.num "NaN", r)
    | 'I' :: 'n' :: 'f' :: 'i' :: 'n' :: 'i' :: 't' :: 'y' :: r => some (.num "Infinity", r)
    | '-' :: 'I' :: 'n' :: 'f' :: 'i' :: 'n' :: 'i' :: 't' :: 'y' :: r =>
      some (.num "-Infinity", r)
    | s2 =>
      (match parseNumberLexeme s2 with
      | none => none
      | some (lit, r) => some (.num lit, r))

/-- Model of `json.loads`: parse one value, allow surrounding whitespace,
require the whole input consumed; `none` models `JSONDecodeError`. -/
def jsonLoads (s : String) : Option Json :=
  match parseValue (s.data.length + 1) s.data with
  | none => none
  | some (v, rest) => if dropJsonWs rest = [] then some v else none

/-- Python truthiness of a decoded JSON value (`None`, `False`, zero numbers,
empty strings/lists/dicts are falsy). -/
def Json.truthy : Json → Bool
  | .null => false
  | .bool b => b
  | .num lit =>
    (lit.data.takeWhile (fun c => c ≠ 'e' ∧ c ≠ 'E')).any (fun c => '1' ≤ c ∧ c ≤ '9')
      || lit = "NaN" || lit = "Infinity" || lit = "-Infinity"
  | .str s => s ≠ ""
  | .arr l => !l.isEmpty
  | .obj f => !f.isEmpty

/-- Python `dict.get` on a decoded JSON object (duplicate keys: last wins, as
in CPython).  On non-object values this returns `none`; CPython would raise
`AttributeError` at the call site instead — the only call site reaches it
under an `if meta:` truthiness guard and no claim exercises truthy non-object
metadata. -/
def Json.objGet : Json → String → Option Json
  | .obj fields, k => (fields.reverse.find? (fun kv => kv.1 = k)).map (fun kv => kv.2)
  | _, _ => none

/-- Python `a or b` over optional JSON values (absent key = `none` = falsy). -/
def pyOrJson (a b : Option Json) : Option Json :=
  match a with
  | some j => if j.truthy then some j else b
  | none => b

/-- Python `a or b` over optional strings (`None` and `""` are falsy). -/
def pyOrStr (a b : Option String) : Option String :=
  match a with
  | some s => if s = "" then b else some s
  | none => b

/-! ### The parsed HTML document

BeautifulSoup's parsed document is modelled as a tree of element nodes
(tag, attributes, children) and text nodes.  Fetching and HTML parsing are
the opaque external capabilities of the spec; the extractors below operate
on the parsed tree exactly as the source operates on the soup. -/

inductive Node where
  | elem (tag : String) (attrs : List (String × String)) (children : List Node)
  | text (s : String)

mutual

/-- BeautifulSoup `get_text()`: concatenation of all text descendants. -/
def nodeGetText : Node → String
  | .text s => s
  | .elem _ _ cs => nodesGetText cs

def nodesGetText : List Node → String
  | [] => ""
  | n :: ns => nodeGetText n ++ nodesGetText ns

end

/-- Python `str.strip()` on ASCII whitespace. -/
def isPyWs (c : Char) : Bool :=
  c = ' ' || c = '\t' || c = '\n' || c = '\r' || c = '\x0b' || c = '\x0c'

def pyStrip (s : String) : String :=
  ⟨((s.data.dropWhile isPyWs).reverse.dropWhile isPyWs).reverse⟩

mutual

/-- BeautifulSoup `get_text(strip=True)`: each text descendant stripped, the
non-empty results concatenated in document order. -/
def nodeStrippedText : Node → String
  | .text s => pyStrip s
  | .elem _ _ cs => nodesStrippedText cs

def nodesStrippedText : List Node → String
  | [] => ""
  | n :: ns => nodeStrippedText n ++ nodesStrippedText ns

end

mutual

/-- All descendants of a node in document order (pre-order). -/
def descendants : Node → List Node
  | .text _ => []
  | .elem _ _ cs => descendantsList cs

def descendantsList : List Node → List Node
  | [] => []
  | n :: ns => n :: (descendants n ++ descendantsList ns)

end

mutual

/-- BeautifulSoup `.string`: the single text child, recursing through a
single element child; `None` when there are zero or several children. -/
def nodeString : Node → Option String
  | .text s => some s
  | .elem _ _ cs => nodeStringOfChildren cs

def nodeStringOfChildren : List Node → Option String
  | [c] => nodeString c
  | _ => none

end

/-- Attribute lookup (first occurrence wins, as in parsed HTML). -/
def getAttr (attrs : List (String × String)) (name : String) : Option String :=
  (attrs.find? (fun kv => kv.1 = name)).map (fun kv => kv.2)

def hasAttr (attrs : List (String × String)) (name : String) : Bool :=
  (getAttr attrs name).isSome

/-- Splits into maximal whitespace-free runs (empty tokens dropped). -/
def wsTokens : List Char → List Char → List String
  | [], acc => if acc = [] then [] else [⟨acc.reverse⟩]
  | c :: rest, acc =>
    if isPyWs c then
      (if acc = [] then [] else [⟨acc.reverse⟩]) ++ wsTokens rest []
    else wsTokens rest (c :: acc)

/-- The whitespace-separated tokens of the `class` attribute. -/
def classTokens (attrs : List (String × String)) : List String :=
  wsTokens ((getAttr attrs "class").getD "").data []

def classAttrRaw (attrs : List (String × String)) : String :=
  (getAttr attrs "class").getD ""

/-! ### Card extractor (`_extract_from_cards`) -/

/-- The candidate selector
`li[data-index], li.goodsItemLi, li[class*=prd], li[class*=goodsItem]`:
an `li` element with a `data-index` attribute, or with class token
`goodsItemLi`, or whose class attribute contains `prd` or `goodsItem`. -/
def cardCandidate : Node → Bool
  | .elem tag attrs _ =>
    tag = "li" &&
      (hasAttr attrs "data-index"
        || (classTokens attrs).contains "goodsItemLi"
        || isSubstr "prd" (classAttrRaw attrs)
        || isSubstr "goodsItem" (classAttrRaw attrs))
  | .text _ => false

/-- The title selector `h3, p.prdName, p[class*=name], div[class*=name]`. -/
def titleSel : Node → Bool
  | .elem tag attrs _ =>
    tag = "h3"
      || (tag = "p" && (classTokens attrs).contains "prdName")
      || (tag = "p" && isSubstr "name" (classAttrRaw attrs))
      || (tag = "div" && isSubstr "name" (classAttrRaw attrs))
  | .text _ => false

/-- `li.find("a", attrs=dict(title=True))`: an anchor carrying a `title`
attribute. -/
def anchorWithTitle : Node → Bool
  | .elem tag attrs _ => tag = "a" && hasAttr attrs "title"
  | .text _ => false

/-- The price selector
`span.price, span[class*=price], em[class*=price], b[class*=price]`. -/
def priceSel : Node → Bool
  | .elem tag attrs _ =>
    (tag = "span" && (classTokens attrs).contains "price")
      || (tag = "span" && isSubstr "price" (classAttrRaw attrs))
      || (tag = "em" && isSubstr "price" (classAttrRaw attrs))
      || (tag = "b" && isSubstr "price" (classAttrRaw attrs))
  | .text _ => false

/-- `_text_or_none`: `None` for a missing element or empty stripped text. -/
def text_or_none : Option Node → Option String
  | none => none
  | some nd =>
    let t := nodeStrippedText nd
    if t = "" then none else some t

/-- Match of the regex `NT\$?\s*([0-9,]+)` anchored at the head of `s`,
returning group 1.  (`\$?` and `\s*` can commit greedily: `$` is neither
whitespace nor a digit, and whitespace and `[0-9,]` are disjoint, so no
backtracking can rescue a failed match.) -/
def ntPriceAt (s : List Char) : Option String :=
  match s with
  | 'N' :: 'T' :: rest =>
    let rest1 := match rest with
      | '$' :: r => r
      | r => r
    let rest2 := rest1.dropWhile isPyWs
    let digits := rest2.takeWhile (fun c => c.isDigit || c = ',')
    if digits = [] then none else some ⟨digits⟩
  | _ => none

/-- `re.search(r"NT\$?\s*([0-9,]+)", text)`: leftmost match. -/
def ntPriceSearch : List Char → Option String
  | [] => none
  | c :: rest =>
    match ntPriceAt (c :: rest) with
    | some g => some g
    | none => ntPriceSearch rest

/-- `_parse_json_metadata`: read the first truthy of the `data-ec`, `ec-data`,
`data-gtm` attributes; `None` when absent or empty; `json.loads` failure
(`JSONDecodeError`) is caught and becomes `None`.  Total by construction —
the model of "never raises". -/
def rawMetaAttr (attrs : List (String × String)) : Option String :=
  pyOrStr (getAttr attrs "data-ec")
    (pyOrStr (getAttr attrs "ec-data") (getAttr attrs "data-gtm"))

def parse_json_metadata (attrs : List (String × String)) : Option Json :=
  match rawMetaAttr attrs with
  | none => none
  | some r => if r = "" then none else jsonLoads r

/-- The title local of the card loop: `li.select_one(...)`, falling back to
the first anchor with a `title` attribute, then `_text_or_none`. -/
def titleOf (li : Node) : Option String :=
  let descs := descendants li
  let title_node := match descs.find? titleSel with
    | some n => some n
    | none => descs.find? anchorWithTitle
  text_or_none title_node

/-- The price local of the card loop: `li.select_one(...)` and
`_text_or_none` when a price node exists, otherwise the `NT$` regex over
`li.get_text()`. -/
def priceOf (li : Node) : Option String :=
  let descs := descendants li
  match descs.find? priceSel with
  | some price_node => text_or_none (some price_node)
  | none => ntPriceSearch (nodeGetText li).data

/-- The category local of the card loop:
`meta.get("cateLevel2Name") or meta.get("cateLevel1Name")` under `if meta:`.
A truthy non-string JSON value is modelled as no category; CPython would
store the raw object there (and crash later when joining), a path no claim
exercises. -/
def categoryOf (li : Node) : Option String :=
  match li with
  | .text _ => none
  | .elem _ attrs _ =>
    match parse_json_metadata attrs with
    | none => none
    | some meta =>
      if meta.truthy then
        match pyOrJson (meta.objGet "cateLevel2Name") (meta.objGet "cateLevel1Name") with
        | some (Json.str s) => some s
        | _ => none
      else none

/-- One iteration of the card loop: a product is appended only when the
title is truthy (`if title:`). -/
def extractCard (li : Node) : Option Product :=
  match titleOf li with
  | none => none
  | some t => if t = "" then none else some ⟨t, priceOf li, categoryOf li⟩

/-- `_extract_from_cards`: the candidate elements of the whole document in
document order, each passed through the card loop. -/
def extract_from_cards (root : Node) : List Product :=
  ((root :: descendants root).filter cardCandidate).filterMap extractCard

/-! ### Script extractor (`_extract_from_scripts`)

The regex
`\x7b[^\x7d]*?goodsName\s*:\s*\"?(.*?)\"?[^\x7d]*?price\s*:?\s*\"?([0-9,]+)\"?[^\x7d]*?\x7d`
is modelled by a backtracking matcher over an explicit item list: each item
enumerates its possible consumptions in regex priority order (lazy items
shortest first, greedy items longest first) and the overall match is the
first full success in that order — exactly CPython's backtracking search. -/

inductive RexItem where
  | lit (s : List Char)
  | lazyNotBrace
  | lazyDotGroup
  | wsStar
  | optChar (c : Char)
  | digitsGroup

/-- All prefixes of `run`, shortest first. -/
def prefixesIncreasing (run : List Char) : List (List Char) :=
  (List.range (run.length + 1)).map (fun k => run.take k)

/-- The candidate `(consumed, rest)` splits of one item, in priority order. -/
def rexOptions : RexItem → List Char → List (List Char × List Char)
  | .lit s, txt =>
    if s.isPrefixOf txt then [(s, txt.drop s.length)] else []
  | .lazyNotBrace, txt =>
    let run := txt.takeWhile (fun c => c ≠ '\x7d')
    (prefixesIncreasing run).map (fun p => (p, txt.drop p.length))
  | .lazyDotGroup, txt =>
    let run := txt.takeWhile (fun c => c ≠ '\n')
    (prefixesIncreasing run).map (fun p => (p, txt.drop p.length))
  | .wsStar, txt =>
    let run := txt.takeWhile isPyWs
    ((prefixesIncreasing run).map (fun p => (p, txt.drop p.length))).reverse
  | .optChar c, txt =>
    (match txt with
    | c2 :: rest => if c2 = c then [([c], rest), ([], txt)] else [([], txt)]
    | [] => [([], txt)])
  | .digitsGroup, txt =>
    let run := txt.takeWhile (fun c => c.isDigit || c = ',')
    (((prefixesIncreasing run).map (fun p => (p, txt.drop p.length))).reverse).filter
      (fun pr => pr.1 ≠ [])

/-- Depth-first backtracking over the item list; returns the two captured
groups and the text following the match. -/
def rexMatch : List RexItem → List Char → String → String →
    Option (String × String × List Char)
  | [], txt, g1, g2 => some (g1, g2, txt)
  | item :: rest, txt, g1, g2 =>
    (rexOptions item txt).findSome? (fun opt =>
      let g1a := match item with
        | .lazyDotGroup => (⟨opt.1⟩ : String)
        | _ => g1
      let g2a := match item with
        | .digitsGroup => (⟨opt.1⟩ : String)
        | _ => g2
      rexMatch rest opt.2 g1a g2a)

/-- The item list of the `goodsName`/`price` pattern. -/
def goodsPattern : List RexItem :=
  [ .lit ['\x7b'], .lazyNotBrace, .lit ("goodsName".data), .wsStar, .lit ([':']),
    .wsStar, .optChar '"', .lazyDotGroup, .optChar '"', .lazyNotBrace,
    .lit ("price".data), .wsStar, .optChar ':', .wsStar, .optChar '"',
    .digitsGroup, .optChar '"', .lazyNotBrace, .lit ['\x7d'] ]

/-- `pattern.finditer(text)`: leftmost non-overlapping matches, scanning on
from the end of each match.  Fuelled by text length (every step consumes at
least one character). -/
def rexFindAll : Nat → List Char → List (String × String)
  | 0, _ => []
  | _ + 1, [] => []
  | fuel + 1, c :: rest =>
    match rexMatch goodsPattern (c :: rest) "" "" with
    | some (g1, g2, remaining) => (g1, g2) :: rexFindAll fuel remaining
    | none => rexFindAll fuel rest

def isScriptTag : Node → Bool
  | .elem tag _ _ => tag = "script"
  | .text _ => false

/-- `script.string or script.text` (falsy `.string` falls back to the full
text). -/
def scriptText (s : Node) : String :=
  match nodeString s with
  | some str => if str = "" then nodeGetText s else str
  | none => nodeGetText s

/-- The per-script loop body of `_extract_from_scripts`. -/
def scriptsLoop : List Node → List Product
  | [] => []
  | sc :: rest =>
    (let txt := scriptText sc
     if txt = "" then []
     else (rexFindAll txt.data.length txt.data).map
       (fun g => (⟨g.1, some g.2, none⟩ : Product)))
      ++ scriptsLoop rest

/-- `_extract_from_scripts`: every `script` element of the document in
document order, matched against the pattern. -/
def extract_from_scripts (root : Node) : List Product :=
  scriptsLoop ((root :: descendants root).filter isScriptTag)

/-- `extract_products`: the card extractor, replaced by the script extractor
when it produced nothing. -/
def extract_products (root : Node) : List Product :=
  let products := extract_from_cards root
  if products.isEmpty then extract_from_scripts root else products

/-! ### The output stage of `main` -/

def csvHeader : List String := ["title", "price", "category"]

/-- One CSV data row: `[product.title, product.price or "", product.category or ""]`. -/
def csvRow (p : Product) : List String :=
  [p.title, p.price.getD "", p.category.getD ""]

/-- A JSON field value of `product.__dict__`: `null` for `None`. -/
def jsonField : Option String → Json
  | some s => .str s
  | none => .null

/-- The JSON object serialized for one product: exactly the three dataclass
fields, in declaration order. -/
def jsonRecord (p : Product) : List (String × Json) :=
  [("title", Json.str p.title), ("price", jsonField p.price),
   ("category", jsonField p.category)]

/-- One line of the text table:
`- <title>( (<category>))?: <price or "N/A">`. -/
def format_line (p : Product) : String :=
  let price_part := match p.price with
    | some s => if s = "" then "N/A" else s
    | none => "N/A"
  let category_part := match p.category with
    | some c => if c = "" then "" else " (" ++ c ++ ")"
    | none => ""
  "- " ++ p.title ++ category_part ++ ": " ++ price_part

def joinNewline : List String → String
  | [] => ""
  | [s] => s
  | s :: rest => s ++ "\n" ++ joinNewline rest

/-- `format_products`: the text lines joined with newlines. -/
def format_products (products : List Product) : String :=
  joinNewline (products.map format_line)

/-- Python slice `l[:n]` for an `int` bound: a nonnegative bound takes a
prefix of that length, a negative bound counts from the end. -/
def pySlice (n : Int) (l : List Product) : List Product :=
  if 0 ≤ n then l.take n.toNat else l.take ((l.length : Int) + n).toNat

/-- `if args.limit is not None: filtered = filtered[: args.limit]`. -/
def limitApplied (filtered : List Product) : Option Int → List Product
  | none => filtered
  | some n => pySlice n filtered

/-- `f"Saved <n> products to <path>"`. -/
def savedMessage (n : Nat) (path : String) : String :=
  "Saved " ++ toString n ++ " products to " ++ path

/-- Observable output of one run of `main`: the rows written to the CSV file
(when a path was given), and the pieces printed to standard output. -/
structure RunResult where
  csvFile : Option (List (List String))
  message : Option String
  jsonOut : Option (List (List (String × Json)))
  textOut : Option String
  savedMsg : Option String

/-- The output stage of `main` given the filtered-and-limited list: write the
CSV when a path was given, then print the no-result message, or the
JSON/text output followed by the saved-file message. -/
def mainOutput (filtered : List Product) (as_json : Bool)
    (csv_path : Option String) : RunResult :=
  let csvFile := csv_path.map (fun _ => csvHeader :: filtered.map csvRow)
  if filtered.isEmpty then
    { csvFile := csvFile, message := some "No matching products found.",
      jsonOut := none, textOut := none, savedMsg := none }
  else if as_json then
    { csvFile := csvFile, message := none,
      jsonOut := some (filtered.map jsonRecord), textOut := none,
      savedMsg := csv_path.map (savedMessage filtered.length) }
  else
    { csvFile := csvFile, message := none, jsonOut := none,
      textOut := some (format_products filtered),
      savedMsg := csv_path.map (savedMessage filtered.length) }

/-- The body of `main` after `extract_products` (fetching and HTML parsing
are opaque I/O): filter, apply the limit, then produce the outputs. -/
def runMain (products : List Product) (keyword : String) (limit : Option Int)
    (as_json : Bool) (csv_path : Option String) : RunResult :=
  mainOutput (limitApplied (filter_products products keyword) limit) as_json csv_path

/-- The CSV file contents depend only on the filtered-and-limited list,
whatever is printed afterwards. -/
theorem mainOutput_csvFile (l : List Product) (as_json : Bool) (path : String) :
    (mainOutput l as_json (some path)).csvFile = some (csvHeader :: l.map csvRow) := by
  unfold mainOutput
  by_cases h : l.isEmpty <;> by_cases h2 : as_json <;> simp [h, h2]

theorem mainOutput_of_empty (as_json : Bool) (cp : Option String) :
    mainOutput [] as_json cp
      = { csvFile := cp.map (fun _ => [csvHeader]),
          message := some "No matching products found.",
          jsonOut := none, textOut := none, savedMsg := none } := rfl

theorem mainOutput_jsonOut (l : List Product) (cp : Option String) :
    (mainOutput l true cp).jsonOut
      = if l.isEmpty then none else some (l.map jsonRecord) := by
  unfold mainOutput
  by_cases h : l.isEmpty <;> simp [h]

theorem mainOutput_textOut (l : List Product) (cp : Option String) :
    (mainOutput l false cp).textOut
      = if l.isEmpty then none else some (format_products l) := by
  unfold mainOutput
  by_cases h : l.isEmpty <;> simp [h]

/-! ### Claims about the output stage -/

/-- C1 (counterexample): with a `--csv` path given and an empty filtered
result, the program does write the CSV file — `main` opens and writes it
(header row included) before the emptiness check — so the claim that no CSV
file is written is false.  The single message is still the only stdout
output. -/
theorem c1_counterexample :
    filter_products [⟨"Phone A", some "9,999", some "AI 手機"⟩] "zzz" = []
    ∧ (runMain [⟨"Phone A", some "9,999", some "AI 手機"⟩] "zzz" none false
        (some "out.csv")).csvFile = some [["title", "price", "category"]]
    ∧ (runMain [⟨"Phone A", some "9,999", some "AI 手機"⟩] "zzz" none false
        (some "out.csv")).message = some "No matching products found." := by
  refine ⟨by decide, by decide, by decide⟩

/-- C1 (amended): if the filtered (and limited) sequence is empty, stdout is
exactly the single message "No matching products found." — no JSON, no text
table, no saved-file line — but when a `--csv` path was given the CSV file
is still written, containing only the header row. -/
theorem c1_empty_result (products : List Product) (keyword : String)
    (limit : Option Int) (as_json : Bool) (path : String)
    (h : limitApplied (filter_products products keyword) limit = []) :
    runMain products keyword limit as_json (some path)
      = { csvFile := some [csvHeader], message := some "No matching products found.",
          jsonOut := none, textOut := none, savedMsg := none } := by
  unfold runMain
  rw [h, mainOutput_of_empty]
  rfl

/-- Witness for the amended C1 at a concrete non-matching keyword. -/
theorem c1_empty_result_witness :
    limitApplied (filter_products [⟨"Phone A", some "9,999", none⟩] "zzz") none = []
    ∧ runMain [⟨"Phone A", some "9,999", none⟩] "zzz" none false (some "out.csv")
      = { csvFile := some [csvHeader], message := some "No matching products found.",
          jsonOut := none, textOut := none, savedMsg := none } :=
  ⟨by decide,
    c1_empty_result [⟨"Phone A", some "9,999", none⟩] "zzz" none false "out.csv"
      (by decide)⟩

/-- C4 (counterexample): the claim quantifies over every integer `--limit`;
for a negative limit Python slicing keeps all but the trailing elements, so
the record count is not `min n (len filtered)` (which would be negative). -/
theorem c4_counterexample :
    limitApplied (filter_products [⟨"a", none, none⟩, ⟨"b", none, none⟩,
        ⟨"c", none, none⟩] "") (some (-1))
      = [⟨"a", none, none⟩, ⟨"b", none, none⟩]
    ∧ ¬(((limitApplied (filter_products [⟨"a", none, none⟩, ⟨"b", none, none⟩,
        ⟨"c", none, none⟩] "") (some (-1))).length : Int)
        = min (-1 : Int) ((filter_products [⟨"a", none, none⟩, ⟨"b", none, none⟩,
          ⟨"c", none, none⟩] "").length : Int)) := by
  refine ⟨by decide, by decide⟩

/-- C4 (amended): for every nonnegative integer `n` given as `--limit`, the
limit step — applied once, before any output — yields the length-`min n len`
prefix of the filtered list (hence `min(n, len)` records in original
relative order), and the same truncated sequence feeds the CSV rows, the
JSON payload and the text table.  (A negative `n` instead follows Python
slice semantics, keeping `max(0, len + n)` leading records.) -/
theorem c4_limit (products : List Product) (keyword : String) (n : Int)
    (as_json : Bool) (path : String) (h : 0 ≤ n) :
    let filtered := filter_products products keyword
    let L := limitApplied filtered (some n)
    L.length = min n.toNat filtered.length
    ∧ L = filtered.take n.toNat
    ∧ List.Sublist L filtered
    ∧ (runMain products keyword (some n) as_json (some path)).csvFile
        = some (csvHeader :: L.map csvRow)
    ∧ ((runMain products keyword (some n) true (some path)).jsonOut
        = if L.isEmpty then none else some (L.map jsonRecord))
    ∧ ((runMain products keyword (some n) false none).textOut
        = if L.isEmpty then none else some (format_products L)) := by
  intro filtered L
  have hL : L = filtered.take n.toNat := by
    simp only [L, limitApplied, pySlice, if_pos h]
  refine ⟨?_, hL, ?_, ?_, ?_, ?_⟩
  · rw [hL]; exact List.length_take n.toNat filtered
  · rw [hL]; exact List.take_sublist n.toNat filtered
  · exact mainOutput_csvFile L as_json path
  · exact mainOutput_jsonOut L (some path)
  · exact mainOutput_textOut L none

/-- Witness for the amended C4 at a concrete two-element list and limit 1. -/
theorem c4_limit_witness :
    (0 : Int) ≤ 1
    ∧ (let filtered := filter_products [⟨"a", none, none⟩, ⟨"b", none, none⟩] ""
       let L := limitApplied filtered (some 1)
       L.length = min (Int.toNat 1) filtered.length
       ∧ L = filtered.take (Int.toNat 1)
       ∧ List.Sublist L filtered
       ∧ (runMain [⟨"a", none, none⟩, ⟨"b", none, none⟩] "" (some 1) true
            (some "out.csv")).csvFile = some (csvHeader :: L.map csvRow)
       ∧ ((runMain [⟨"a", none, none⟩, ⟨"b", none, none⟩] "" (some 1) true
            (some "out.csv")).jsonOut
          = if L.isEmpty then none else some (L.map jsonRecord))
       ∧ ((runMain [⟨"a", none, none⟩, ⟨"b", none, none⟩] "" (some 1) false
            none).textOut
          = if L.isEmpty then none else some (format_products L))) :=
  ⟨by decide,
    c4_limit [⟨"a", none, none⟩, ⟨"b", none, none⟩] "" 1 true "out.csv" (by decide)⟩

/-! ### Claims about extraction -/

/-- C5: the script extractor is the result exactly when the card extractor
produced nothing; a non-empty card result is returned as is. -/
theorem c5_script_fallback (root : Node) :
    (extract_from_cards root ≠ [] → extract_products root = extract_from_cards root)
    ∧ (extract_from_cards root = [] → extract_products root = extract_from_scripts root) := by
  constructor <;> intro h <;> simp [extract_products, List.isEmpty_iff, h]

/-- A document whose single product card is found by the card extractor. -/
def c5DocCards : Node :=
  .elem "html" [] [.elem "ul" [] [
    .elem "li" [("data-index", "1")] [
      .elem "h3" [] [.text "Phone A"],
      .elem "span" [("class", "price")] [.text "9,999"]]]]

/-- A document with no product cards but one inline script object. -/
def c5DocScripts : Node :=
  .elem "html" [] [.elem "body" [] [
    .elem "script" [] [.text "var d = \x7bgoodsName:\"\",price:123\x7d;"]]]

/-- Witness for C5: one concrete document per branch, the second showing the
fallback actually firing. -/
theorem c5_script_fallback_witness :
    (extract_from_cards c5DocCards ≠ []
      ∧ extract_products c5DocCards = extract_from_cards c5DocCards)
    ∧ (extract_from_cards c5DocScripts = []
      ∧ extract_products c5DocScripts = extract_from_scripts c5DocScripts) :=
  ⟨⟨by decide, (c5_script_fallback c5DocCards).1 (by decide)⟩,
   ⟨by decide, (c5_script_fallback c5DocScripts).2 (by decide)⟩⟩

/-- C6: when the metadata attribute of a candidate is present but fails to
decode as JSON, the failure is recovered locally (`_parse_json_metadata`
returns `None` — it is total, so it never raises), the category is absent,
and the candidate is still admitted whenever a title was found. -/
theorem c6_malformed_metadata (tag : String) (attrs : List (String × String))
    (children : List Node) (raw t : String)
    (hraw : rawMetaAttr attrs = some raw)
    (hfail : jsonLoads raw = none)
    (htitle : titleOf (Node.elem tag attrs children) = some t)
    (ht : t ≠ "") :
    parse_json_metadata attrs = none
    ∧ categoryOf (Node.elem tag attrs children) = none
    ∧ extractCard (Node.elem tag attrs children)
        = some ⟨t, priceOf (Node.elem tag attrs children), none⟩ := by
  have hparse : parse_json_metadata attrs = none := by
    unfold parse_json_metadata
    rw [hraw]
    by_cases hr : raw = "" <;> simp [hr, hfail]
  have hcat : categoryOf (Node.elem tag attrs children) = none := by
    simp only [categoryOf]
    rw [hparse]
  refine ⟨hparse, hcat, ?_⟩
  unfold extractCard
  rw [htitle]
  simp [ht, hcat]

/-- A card candidate whose `data-ec` attribute holds malformed JSON. -/
def c6Li : Node :=
  .elem "li" [("data-index", "0"), ("data-ec", "\x7bnot json")]
    [.elem "h3" [] [.text "Phone A"]]

/-- Witness for C6 at a concrete candidate with broken metadata. -/
theorem c6_malformed_metadata_witness :
    rawMetaAttr [("data-index", "0"), ("data-ec", "\x7bnot json")] = some "\x7bnot json"
    ∧ jsonLoads "\x7bnot json" = none
    ∧ titleOf c6Li = some "Phone A"
    ∧ "Phone A" ≠ ""
    ∧ (parse_json_metadata [("data-index", "0"), ("data-ec", "\x7bnot json")] = none
      ∧ categoryOf c6Li = none
      ∧ extractCard c6Li = some ⟨"Phone A", priceOf c6Li, none⟩) :=
  ⟨by decide, rfl, by decide, by decide,
    c6_malformed_metadata "li" [("data-index", "0"), ("data-ec", "\x7bnot json")]
      [.elem "h3" [] [.text "Phone A"]] "\x7bnot json" "Phone A"
      (by decide) rfl (by decide) (by decide)⟩

/-- A document whose only product data sits in an inline script; the regex's
lazy title group matches emptily, so the extracted listing has an empty
title. -/
def c7ScriptDoc : Node :=
  .elem "html" [] [.elem "body" []
    [.elem "script" [] [.text "var d = \x7bgoodsName:\"Phone X\",price:123\x7d;"]]]

/-- C7 (counterexample): extraction can produce a listing with an empty
title: the script extractor appends a product for every regex match without
any title check, and the non-greedy `(.*?)` group captures the empty string
(the following `\"?` being optional) even though the embedded object names
"Phone X". -/
theorem c7_counterexample :
    extract_products c7ScriptDoc = [⟨"", some "123", none⟩]
    ∧ ¬(∀ p ∈ extract_products c7ScriptDoc, p.title ≠ "") :=
  ⟨by decide, by decide⟩

/-- C7 (amended): every listing produced by the card extractor has a
non-empty title — the `if title:` admission check; the script extractor does
not enforce this. -/
theorem c7_card_titles_nonempty (root : Node) (p : Product)
    (h : p ∈ extract_from_cards root) : p.title ≠ "" := by
  unfold extract_from_cards at h
  rw [List.mem_filterMap] at h
  obtain ⟨li, _hmem, hcard⟩ := h
  unfold extractCard at hcard
  cases htitle : titleOf li with
  | none =>
    rw [htitle] at hcard
    exact absurd hcard (by simp)
  | some t =>
    rw [htitle] at hcard
    have hcard2 : (if t = "" then none
        else some (⟨t, priceOf li, categoryOf li⟩ : Product)) = some p := hcard
    by_cases ht : t = ""
    · rw [if_pos ht] at hcard2; simp at hcard2
    · rw [if_neg ht] at hcard2
      have hp := Option.some.inj hcard2
      rw [← hp]
      exact ht

/-- A document with one well-formed product card. -/
def c7CardDoc : Node :=
  .elem "html" [] [.elem "ul" [] [.elem "li" [("class", "goodsItemLi")]
    [.elem "p" [("class", "prdName")] [.text "Phone B"]]]]

/-- Witness for the amended C7 at a concrete card-extracted listing. -/
theorem c7_card_titles_nonempty_witness :
    (⟨"Phone B", none, none⟩ : Product) ∈ extract_from_cards c7CardDoc
    ∧ (⟨"Phone B", none, none⟩ : Product).title ≠ "" :=
  ⟨by rw [show extract_from_cards c7CardDoc = [⟨"Phone B", none, none⟩] from by decide]
      exact List.mem_singleton.mpr rfl,
    c7_card_titles_nonempty c7CardDoc ⟨"Phone B", none, none⟩
      (by rw [show extract_from_cards c7CardDoc = [⟨"Phone B", none, none⟩] from by decide]
          exact List.mem_singleton.mpr rfl)⟩

/-! ### Claim C8: JSON and CSV carry the same records -/

/-- The translation a CSV cell applies to a JSON field value: a string stays
itself, `null` (a missing price/category) becomes the empty string. -/
def fieldToCsv : Json → String
  | .str s => s
  | _ => ""

theorem csvRow_eq_jsonRecord (p : Product) :
    csvRow p = (jsonRecord p).map (fun kv => fieldToCsv kv.2) := by
  obtain ⟨t, pr, c⟩ := p
  cases pr <;> cases c <;> rfl

/-- C8: whenever one run produces both a JSON payload and a CSV file, the
CSV is exactly the header row followed by the JSON records translated
fieldwise (identical strings, `null` as the empty cell), and every JSON
record carries exactly the three fields in order. -/
theorem c8_json_csv_agree (products : List Product) (keyword : String)
    (limit : Option Int) (path : String)
    (J : List (List (String × Json))) (C : List (List String))
    (hJ : (runMain products keyword limit true (some path)).jsonOut = some J)
    (hC : (runMain products keyword limit true (some path)).csvFile = some C) :
    C = csvHeader :: J.map (fun r => r.map (fun kv => fieldToCsv kv.2))
    ∧ ∀ r ∈ J, r.map Prod.fst = ["title", "price", "category"] := by
  unfold runMain at hJ hC
  set L := limitApplied (filter_products products keyword) limit with hLdef
  rw [mainOutput_jsonOut L (some path)] at hJ
  rw [mainOutput_csvFile L true path] at hC
  by_cases hemp : L.isEmpty
  · rw [if_pos hemp] at hJ; simp at hJ
  · rw [if_neg hemp] at hJ
    have hJ2 := Option.some.inj hJ
    have hC2 := Option.some.inj hC
    rw [← hJ2, ← hC2]
    constructor
    · congr 1
      rw [List.map_map]
      exact List.map_congr_left (fun a _ => csvRow_eq_jsonRecord a)
    · intro r hr
      obtain ⟨p, _, rfl⟩ := List.mem_map.mp hr
      rfl

/-- Witness for C8 at a concrete one-product run. -/
theorem c8_json_csv_agree_witness :
    (runMain [⟨"Phone A", some "9,999", none⟩] "" none true (some "o.csv")).jsonOut
      = some [[("title", Json.str "Phone A"), ("price", Json.str "9,999"),
               ("category", Json.null)]]
    ∧ (runMain [⟨"Phone A", some "9,999", none⟩] "" none true (some "o.csv")).csvFile
      = some [["title", "price", "category"], ["Phone A", "9,999", ""]]
    ∧ ([["title", "price", "category"], ["Phone A", "9,999", ""]]
        = csvHeader :: ([[("title", Json.str "Phone A"), ("price", Json.str "9,999"),
            ("category", Json.null)]].map (fun r => r.map (fun kv => fieldToCsv kv.2)))
      ∧ ∀ r ∈ [[("title", Json.str "Phone A"), ("price", Json.str "9,999"),
          ("category", Json.null)]], r.map Prod.fst = ["title", "price", "category"]) :=
  ⟨rfl, rfl,
    c8_json_csv_agree [⟨"Phone A", some "9,999", none⟩] "" none "o.csv"
      [[("title", Json.str "Phone A"), ("price", Json.str "9,999"),
        ("category", Json.null)]]
      [["title", "price", "category"], ["Phone A", "9,999", ""]] rfl rfl⟩
